import Mathlib

/-!
# InsightDuck frontend — verification of the wizard session model

Shallow embedding of the browser-side session store, the cleaning-wizard
step sequencing, the step components' completion/failure behaviour, the
EDA chart-data cache and the 401 handling of the InsightDuck frontend.

Sources embedded (second, multi-session implementations are the canonical
ones where the repository holds several historical versions of a file):
- `src/frontend/context/ProjectContext.jsx` (second implementation):
  `setActiveProject`, `updateCurrentSession`, the `currentSession`
  derivation and the localStorage load effect.
- `src/frontend/views/DataCleaningView.jsx` (second implementation):
  the per-step `onComplete` handlers and the fixed step order.
- The step components (`HandleDuplicatesStep.jsx`, `SuggestTypesStep.jsx`,
  `ImputeNullsStep.jsx`, `ConvertTypesStep.jsx`, `DropColumnsStep.jsx`,
  `FindDuplicatesStep`, `AutoCleanStep`, `ExportCsvStep`).
- `EdaView.jsx` (`fetchChartData` and its cached-or-loading guard).
- `AuthContext.jsx` (`makeAuthenticatedRequest` 401 handling) together
  with the `Sidebar.jsx` / dashboard callers.

JavaScript objects are embedded as structures whose fields are `Option`s
(a `none` field is an absent key); object spread is field-wise
right-biased merge; the session store object is a map from project id to
an optional session object.
-/

namespace InsightDuck

/-- The defined step names of the cleaning wizard, in their fixed order
(`actionStep` values dispatched in `DataCleaningView.jsx`). -/
inductive Step where
  | initial
  | find_duplicates
  | handle_duplicates
  | suggest_types
  | convert_types
  | impute_nulls
  | drop_columns
  | export_csv
deriving DecidableEq, Repr

/-- Position of a step in the fixed order. -/
def stepIndex : Step → Nat
  | .initial => 0
  | .find_duplicates => 1
  | .handle_duplicates => 2
  | .suggest_types => 3
  | .convert_types => 4
  | .impute_nulls => 5
  | .drop_columns => 6
  | .export_csv => 7

/-- The fixed successor of each step, as hard-coded in the `onComplete`
handlers of `DataCleaningView.jsx` (`export_csv` is terminal: its
component takes no `onComplete`). -/
def nextStep : Step → Option Step
  | .initial => some .find_duplicates
  | .find_duplicates => some .handle_duplicates
  | .handle_duplicates => some .suggest_types
  | .suggest_types => some .convert_types
  | .convert_types => some .impute_nulls
  | .impute_nulls => some .drop_columns
  | .drop_columns => some .export_csv
  | .export_csv => none

/-- A type-conversion suggestion as returned by `suggest-conversions`
(fields read by `SuggestTypesStep.jsx` and `ConvertTypesModal`). -/
structure Suggestion where
  column_name : String
  current_type : String
  suggested_type : String
  confidence : Rat
deriving DecidableEq, Repr

/-- Payload of an agent message: `log` messages carry a string list,
`info` and `error` messages a string, `suggestions` messages a
suggestion list (renderer dispatch in `DataCleaningView.jsx`). -/
inductive MsgContent where
  | strList : List String → MsgContent
  | str : String → MsgContent
  | sugList : List Suggestion → MsgContent
deriving DecidableEq, Repr

/-- An agent message object (`{type, content, title?}`). -/
structure Msg where
  type : String
  content : MsgContent
  title : Option String := none
deriving DecidableEq, Repr

/-- An element of the `agentMessages` array. The array is untyped in
JavaScript: the `suggest_types` completion handler spreads whatever its
second positional argument holds into the log, so raw suggestion objects
can end up in it alongside proper message objects. -/
inductive AgentEntry where
  | message : Msg → AgentEntry
  | suggestion : Suggestion → AgentEntry
deriving DecidableEq, Repr

/-- Shorthand for the `{type: 'info', content: s}` message entries the
step components build. -/
def infoEntry (s : String) : AgentEntry :=
  .message { type := "info", content := .str s }

/-- Shorthand for `{type: 'error', content: s}` message entries. -/
def errorEntry (s : String) : AgentEntry :=
  .message { type := "error", content := .str s }

/-- Shorthand for `{type: 'log', content: lines}` message entries. -/
def logEntry (lines : List String) : AgentEntry :=
  .message { type := "log", content := .strList lines }

/-- Dataset profile payload fields the embedded code reads
(`total_rows`/`total_columns`/`duplicates_count` are rendered,
`null_counts` gates the impute-nulls skip). `none` is an absent key. -/
structure Profile where
  project_name : Option String := none
  total_rows : Nat := 0
  total_columns : Nat := 0
  duplicates_count : Nat := 0
  null_counts : Option (List (String × Nat)) := none
deriving DecidableEq, Repr

/-- A chart suggestion from `suggest-llm-visualizations`
(`EdaView.jsx` reads `chart_type`, `title`, `description` and
`parameters.{x_axis, y_axis}`). -/
structure ChartSuggestion where
  chart_type : String
  title : String := ""
  description : String := ""
  x_axis : String
  y_axis : Option String := none
deriving DecidableEq, Repr

/-- The cached `{summary, insights, suggestions}` bundle stored under
`edaResults` by `EdaView.fetchEdaData`. Payload contents are opaque to
the session logic. -/
structure EdaResults where
  summary : List (String × String) := []
  insights : List String := []
  suggestions : List ChartSuggestion := []
deriving DecidableEq, Repr

/-- A project session object as stored in `projectSessions`. Every field
is optional, as in JavaScript: `setActiveProject` writes objects holding
only `profile`, `agentMessages` and `actionStep`, and
`updateCurrentSession` merges arbitrary partial objects. -/
structure SessionObj where
  profile : Option Profile := none
  agentMessages : Option (List AgentEntry) := none
  actionStep : Option Step := none
  typeSuggestions : Option (List AgentEntry) := none
  edaResults : Option EdaResults := none
deriving DecidableEq, Repr

/-- The empty object `{}`. -/
def emptyObj : SessionObj := {}

/-- Right-biased field-wise merge, the meaning of
`{...prev, ...updates}` on session objects: a key present in `updates`
wins, a key absent in `updates` keeps the previous value. -/
def mergeObj (prev updates : SessionObj) : SessionObj where
  profile := updates.profile.or prev.profile
  agentMessages := updates.agentMessages.or prev.agentMessages
  actionStep := updates.actionStep.or prev.actionStep
  typeSuggestions := updates.typeSuggestions.or prev.typeSuggestions
  edaResults := updates.edaResults.or prev.edaResults

/-- The `projectSessions` mapping from project id to session object. -/
def Store : Type := Nat → Option SessionObj

/-- The empty mapping `{}`. -/
def emptyStore : Store := fun _ => none

/-- `{...prev, [id]: v}`: point update of the store. -/
def Store.set (st : Store) (id : Nat) (v : SessionObj) : Store :=
  fun k => if k = id then some v else st k

/-- The state held by `ProjectProvider`: the session store and the
active project id. -/
structure ProviderState where
  projectSessions : Store
  activeProjectId : Option Nat

/-- `setActiveProject(projectData)` (`ProjectContext.jsx`, second
implementation, lines 145-168): with `null` it clears the active id;
otherwise it sets the active id and writes a session object whose
`profile` is the incoming one and whose `agentMessages`/`actionStep`
come from the existing session when present (`existingSession.field ||
default`); the written object literal has no `typeSuggestions` or
`edaResults` key. -/
def setActiveProject (st : ProviderState) (projectData : Option (Nat × Profile)) :
    ProviderState :=
  match projectData with
  | none => { st with activeProjectId := none }
  | some (project_id, profile) =>
    let existingSession := (st.projectSessions project_id).getD emptyObj
    let sess : SessionObj :=
      { profile := some profile
        agentMessages := some (existingSession.agentMessages.getD [])
        actionStep := some (existingSession.actionStep.getD .initial) }
    { activeProjectId := some project_id
      projectSessions := st.projectSessions.set project_id sess }

/-- `updateCurrentSession(updates)` (`ProjectContext.jsx`, second
implementation, lines 170-180): a no-op without an active project,
otherwise `{...prev, [activeProjectId]: {...prev[activeProjectId],
...updates}}`. -/
def updateCurrentSession (st : ProviderState) (updates : SessionObj) : ProviderState :=
  match st.activeProjectId with
  | none => st
  | some id =>
    { st with
      projectSessions :=
        st.projectSessions.set id (mergeObj ((st.projectSessions id).getD emptyObj) updates) }

/-- The derived `currentSession` value (`ProjectContext.jsx` lines
182-189): `activeProjectId ? projectSessions[activeProjectId] : null`. -/
def currentSession (st : ProviderState) : Option SessionObj :=
  match st.activeProjectId with
  | none => none
  | some id => st.projectSessions id

/-- The localStorage load effect that runs when the user is identified
(`ProjectContext.jsx`, second implementation, lines 125-137): nothing
stored keeps the state, a blob that deserializes replaces the store
wholesale, a parse error is caught and resets the store to `{}`.
`activeProjectId` is not touched in any branch. The stored blob is
embedded as `Option (Except String Store)`: `none` for no stored value,
`Except.error` for a `JSON.parse` throw. -/
def loadSessionsEffect (st : ProviderState) (stored : Option (Except String Store)) :
    ProviderState :=
  match stored with
  | none => st
  | some (.ok parsed) => { st with projectSessions := parsed }
  | some (.error _) => { st with projectSessions := emptyStore }

/-! ## Step completions (`DataCleaningView.jsx`, second implementation)

Each mounted step component invokes the `onComplete` callback the view
passes it; the view's handler builds the `updates` object for
`updateCurrentSession`. Arguments are positional, exactly as the
JavaScript call sites pass them. -/

/-- An `onComplete` invocation, one constructor per handler in
`DataCleaningView.jsx` lines 283-364, carrying the positional arguments
the mounted child passes. For `suggest_types` the child
(`SuggestTypesStep.jsx` line 42) calls `onComplete(first, second)`, so
the constructor records both positional arguments unnamed. -/
inductive StepCompletion where
  | autoClean (newProfile : Profile) (newMessages : List AgentEntry)
  | findDuplicates (newMessages : List AgentEntry)
  | handleDuplicates (newProfile : Option Profile) (newMessages : List AgentEntry)
  | suggestTypes (first second : List AgentEntry)
  | convertTypes (newProfile : Option Profile) (newMessages : List AgentEntry)
  | imputeNulls (newProfile : Option Profile) (newMessages : List AgentEntry)
  | dropColumns (newProfile : Option Profile) (newMessages : List AgentEntry)
deriving DecidableEq, Repr

/-- The step at which each completion's component is mounted: the view
renders exactly one step component, chosen by `actionStep`. -/
def mountStep : StepCompletion → Step
  | .autoClean .. => .initial
  | .findDuplicates .. => .find_duplicates
  | .handleDuplicates .. => .handle_duplicates
  | .suggestTypes .. => .suggest_types
  | .convertTypes .. => .convert_types
  | .imputeNulls .. => .impute_nulls
  | .dropColumns .. => .drop_columns

/-- The `updates` object each `onComplete` handler passes to
`updateCurrentSession` (`DataCleaningView.jsx` lines 283-364), given the
destructured `profile` and `agentMessages` of the current session. The
`suggest_types` handler is `(suggestions, newMessages) =>
{typeSuggestions: suggestions, agentMessages: [...agentMessages,
...newMessages], actionStep: 'convert_types'}`, applied to the child's
positional arguments. -/
def onCompleteUpdate (profile : Option Profile) (agentMessages : List AgentEntry) :
    StepCompletion → SessionObj
  | .autoClean newProfile newMessages =>
    { profile := some newProfile
      agentMessages := some (agentMessages ++ newMessages)
      actionStep := some .find_duplicates }
  | .findDuplicates newMessages =>
    { agentMessages := some (agentMessages ++ newMessages)
      actionStep := some .handle_duplicates }
  | .handleDuplicates newProfile newMessages =>
    { profile := newProfile.or profile
      agentMessages := some (agentMessages ++ newMessages)
      actionStep := some .suggest_types }
  | .suggestTypes first second =>
    { typeSuggestions := some first
      agentMessages := some (agentMessages ++ second)
      actionStep := some .convert_types }
  | .convertTypes newProfile newMessages =>
    { profile := newProfile.or profile
      agentMessages := some (agentMessages ++ newMessages)
      actionStep := some .impute_nulls }
  | .imputeNulls newProfile newMessages =>
    { profile := newProfile.or profile
      agentMessages := some (agentMessages ++ newMessages)
      actionStep := some .drop_columns }
  | .dropColumns newProfile newMessages =>
    { profile := newProfile.or profile
      agentMessages := some (agentMessages ++ newMessages)
      actionStep := some .export_csv }

/-- A completion can fire only when its component is mounted: there is a
current session and its `actionStep` is the component's step. -/
def completionFires (st : ProviderState) (c : StepCompletion) : Prop :=
  ∃ sess, currentSession st = some sess ∧ sess.actionStep = some (mountStep c)

instance (st : ProviderState) (c : StepCompletion) : Decidable (completionFires st c) := by
  unfold completionFires
  cases h : currentSession st with
  | none => exact .isFalse (by simp [h])
  | some sess => exact decidable_of_iff (sess.actionStep = some (mountStep c)) (by simp [h])

/-- Delivering a completion: the handler reads `profile` and
`agentMessages` off the current session and calls
`updateCurrentSession` with the built updates object. -/
def applyCompletion (st : ProviderState) (c : StepCompletion) : ProviderState :=
  let sess := (currentSession st).getD emptyObj
  updateCurrentSession st (onCompleteUpdate sess.profile (sess.agentMessages.getD []) c)

/-- The `actionStep` of the current session, if any. -/
def currentStepOf (st : ProviderState) : Option Step :=
  (currentSession st).bind (·.actionStep)

/-- Index of the current step (0 when none, for trace measures). -/
def stepIdxOf (st : ProviderState) : Nat :=
  match currentStepOf st with
  | some s => stepIndex s
  | none => 0

/-- One view event: a completion fires from the mounted component. -/
def wizardEvent (st st' : ProviderState) : Prop :=
  ∃ c, completionFires st c ∧ st' = applyCompletion st c

/-- Any number of step completions. -/
def wizardReaches : ProviderState → ProviderState → Prop :=
  Relation.ReflTransGen wizardEvent

/-! ## Step component behaviour

Each component's click/confirm handler is embedded as a pure function of
the backend outcome, returning what the handler does: which backend
endpoints it hits, what it passes to `onComplete`, which inline error it
sets, and what it appends directly to the message log (only the
auto-clean step writes the log directly, through its
`setAgentMessages` prop). -/

/-- The observable effects of running one step handler. -/
structure HandlerOutcome where
  /-- Backend endpoints requested by the handler. -/
  requests : List String := []
  /-- The `onComplete` invocation, when the handler completes the step. -/
  completion : Option StepCompletion := none
  /-- The step-local `setError` value, when set. -/
  inlineError : Option String := none
  /-- Entries the handler itself appends to the shared message log
  (`setAgentMessages(prev => [...prev, entry])`). -/
  logAppend : List AgentEntry := []
deriving DecidableEq, Repr

/-- Whether the session has null counts to impute
(`ImputeNullsStep.jsx` line 48: `currentSession?.profile?.null_counts &&
Object.keys(...).length > 0`). -/
def hasNulls (sess : SessionObj) : Bool :=
  match sess.profile with
  | none => false
  | some p =>
    match p.null_counts with
    | none => false
    | some ncs => decide (0 < ncs.length)

/-- Whether the session has pending type suggestions
(`ConvertTypesStep` line 48: `currentSession?.typeSuggestions &&
currentSession.typeSuggestions.length > 0`). -/
def hasSuggestions (sess : SessionObj) : Bool :=
  match sess.typeSuggestions with
  | none => false
  | some l => decide (0 < l.length)

/-- `HandleDuplicatesStep.handleCancel` (lines 44-48): declining the
confirmation modal makes no request and completes with
`(null, [{type: 'info', content: 'Skipped removing duplicates.'}])`. -/
def handleDuplicatesCancel : HandlerOutcome :=
  { completion := some (.handleDuplicates none [infoEntry "Skipped removing duplicates."]) }

/-- `ImputeNullsStep` button click when `hasNulls` is false (line 54):
completes immediately with one info message and no request. -/
def imputeNullsSkipNoNulls : HandlerOutcome :=
  { completion := some (.imputeNulls none [infoEntry "No null values to impute."]) }

/-- `ImputeNullsStep.handleConfirmImputations` with an empty selection
(lines 17-20): completes with one info message and no request. -/
def imputeNullsSkipEmptySelection : HandlerOutcome :=
  { completion := some (.imputeNulls none [infoEntry "Skipped imputing null values."]) }

/-- `ConvertTypesStep` button click when `hasSuggestions` is false
(line 54): completes immediately with one info message and no request. -/
def convertTypesSkipNoSuggestions : HandlerOutcome :=
  { completion := some (.convertTypes none [infoEntry "No type conversions to review."]) }

/-- `ConvertTypesStep.handleConfirmConversions` with an empty selection
(lines 17-20): completes with one info message and no request. -/
def convertTypesSkipEmptySelection : HandlerOutcome :=
  { completion := some (.convertTypes none [infoEntry "Skipped data type conversion."]) }

/-- `AutoCleanStep`'s catch block: `setAgentMessages(prev => [...prev,
{type: 'error', content: error.message}])` — the failure is appended to
the shared message log; the component renders no inline error text and
does not advance. -/
def autoCleanOnCatch (e : String) : HandlerOutcome :=
  { requests := ["auto-clean"], logAppend := [errorEntry e] }

/-- `FindDuplicatesStep`'s catch block: `setError(err.message)`. -/
def findDuplicatesOnCatch (e : String) : HandlerOutcome :=
  { requests := ["find-duplicates"], inlineError := some e }

/-- `HandleDuplicatesStep.handleConfirm`'s catch block (lines 37-42):
`setError(err.message)`. -/
def handleDuplicatesOnCatch (e : String) : HandlerOutcome :=
  { requests := ["handle-duplicates"], inlineError := some e }

/-- `SuggestTypesStep`'s catch block: `setError(err.message)`. -/
def suggestTypesOnCatch (e : String) : HandlerOutcome :=
  { requests := ["suggest-conversions"], inlineError := some e }

/-- `ConvertTypesStep`'s catch block: `setError(err.message)`. -/
def convertTypesOnCatch (e : String) : HandlerOutcome :=
  { requests := ["convert-types"], inlineError := some e }

/-- `ImputeNullsStep`'s catch block: `setError(err.message)`. -/
def imputeNullsOnCatch (e : String) : HandlerOutcome :=
  { requests := ["impute-nulls"], inlineError := some e }

/-- `DropColumnsStep`'s catch block: `setError(err.message)`. -/
def dropColumnsOnCatch (e : String) : HandlerOutcome :=
  { requests := ["drop-columns"], inlineError := some e }

/-- `ExportCsvStep.handleDownload`'s catch block: `setError(err.message)`. -/
def exportCsvOnCatch (e : String) : HandlerOutcome :=
  { requests := ["export-csv"], inlineError := some e }

/-- The failure behaviour of the component mounted at each step: what a
failing backend call (network error or non-2xx) makes it do. -/
def stepFailureOutcome : Step → String → HandlerOutcome
  | .initial, e => autoCleanOnCatch e
  | .find_duplicates, e => findDuplicatesOnCatch e
  | .handle_duplicates, e => handleDuplicatesOnCatch e
  | .suggest_types, e => suggestTypesOnCatch e
  | .convert_types, e => convertTypesOnCatch e
  | .impute_nulls, e => imputeNullsOnCatch e
  | .drop_columns, e => dropColumnsOnCatch e
  | .export_csv, e => exportCsvOnCatch e

/-! ## The suggest-types success path -/

/-- Response of `suggest-conversions` as read by `SuggestTypesStep`. -/
structure SuggestResponse where
  suggestions : List Suggestion
deriving DecidableEq, Repr

/-- One line of the suggestion message (`SuggestTypesStep.jsx` lines
31-33). -/
def suggestionLine (s : Suggestion) : String :=
  "- For column \"" ++ s.column_name ++ "\", I suggest changing the type from "
    ++ s.current_type ++ " to " ++ s.suggested_type
    ++ " (confidence: " ++ toString (s.confidence * 100) ++ "%)"

/-- The info message text built by `handleSuggestDataTypes`
(`SuggestTypesStep.jsx` lines 29-37). -/
def suggestMessage (suggestions : List Suggestion) : String :=
  if 0 < suggestions.length then
    "I\x27ve analyzed the data types and have the following suggestions:\n"
      ++ String.intercalate "\n" (suggestions.map suggestionLine)
  else
    "I didn\x27t find any columns that I could confidently suggest a type conversion for."

/-- `handleSuggestDataTypes` success path (`SuggestTypesStep.jsx` lines
29-43): builds `newMessages = [{type: 'info', content: message}]` and
calls `onComplete(newMessages, data.suggestions)` — the message list is
the FIRST positional argument and the suggestion list the SECOND. -/
def suggestTypesOnSuccess (data : SuggestResponse) : HandlerOutcome :=
  { requests := ["suggest-conversions"]
    completion := some (.suggestTypes
      [infoEntry (suggestMessage data.suggestions)]
      (data.suggestions.map .suggestion)) }

/-! ## EDA chart-data fetching (`EdaView.jsx`) -/

/-- What `fetchChartData` stores under a chart key: the response's
`chart_data` on success, `{error: message}` in the catch branch. -/
inductive ChartResult where
  | payload (chart_data : List (List (String × String)))
  | failure (error : String)
deriving DecidableEq, Repr

/-- The composite chart key (`EdaView.jsx` lines 177-179):
`` `${chart_type}-${x_axis}-${y_axis || "null"}` ``. -/
def chartKey (s : ChartSuggestion) : String :=
  s.chart_type ++ "-" ++ s.x_axis ++ "-" ++ (s.y_axis.getD "null")

/-- The chart-fetching state of a mounted `EdaView`:
`chartDataState` (keyed results), `loadingChartId` (the single currently
tracked loading key), and the multiset of keys with a request still in
flight (requests are asynchronous; a dispatched request stays in flight
until its response lands). -/
structure EdaChartState where
  chartDataState : String → Option ChartResult
  loadingChartId : Option String
  inFlight : List String

/-- The initial state of a freshly mounted `EdaView`
(`useState({})` / `useState(null)`). -/
def edaInit : EdaChartState :=
  { chartDataState := fun _ => none, loadingChartId := none, inFlight := [] }

/-- An event of the chart-fetch system: a `VisualizationCard` effect
invoking `fetchChartData` for a key, or an in-flight response landing
(success or the catch branch — both store a result under the key and
run the `finally` that clears `loadingChartId`). -/
inductive EdaEvent where
  | fetch (k : String)
  | land (k : String) (r : ChartResult)
deriving DecidableEq, Repr

/-- One transition of the chart-fetch system, returning the next state
and the number of backend requests issued (0 or 1).

`fetch k` follows `fetchChartData` (`EdaView.jsx` lines 175-219): the
guard `if (chartDataState[chartId] || loadingChartId === chartId)
return;` aborts with no request; otherwise `setLoadingChartId(chartId)`
runs and the request is dispatched. `land k r` delivers a response for
an in-flight key: the result is stored under the key and the `finally`
clears `loadingChartId`. -/
def edaStep (st : EdaChartState) (e : EdaEvent) : EdaChartState × Nat :=
  match e with
  | .fetch k =>
    if (st.chartDataState k).isSome ∨ st.loadingChartId = some k then (st, 0)
    else
      ({ st with loadingChartId := some k, inFlight := k :: st.inFlight }, 1)
  | .land k r =>
    if k ∈ st.inFlight then
      ({ chartDataState := fun k' => if k' = k then some r else st.chartDataState k'
         loadingChartId := none
         inFlight := st.inFlight.erase k }, 0)
    else (st, 0)

/-- Run a sequence of events, collecting the keys of all backend
requests issued along the way. -/
def edaRun (st : EdaChartState) : List EdaEvent → EdaChartState × List String
  | [] => (st, [])
  | e :: es =>
    let (st', n) := edaStep st e
    let (st'', ks) := edaRun st' es
    (st'', (match e with
            | .fetch k => if n = 1 then [k] else []
            | .land .. => []) ++ ks)

/-! ## 401 handling -/

/-- The call sites that issue authenticated backend requests, as wired
in the second (canonical) Dashboard/Sidebar/step implementations. -/
inductive ApiCaller where
  | sidebarFetchProjects
  | dashboardSelectProject
  | autoCleanStep
  | findDuplicatesStep
  | handleDuplicatesStep
  | suggestTypesStep
  | convertTypesStep
  | imputeNullsStep
  | dropColumnsStep
  | exportCsvStep
  | edaFetch
  | edaChartFetch
deriving DecidableEq, Repr

/-- What the application does when a call from the given site receives
an HTTP 401. `makeAuthenticatedRequest` (`AuthContext`, second
implementation, lines 224-246) always calls `logout()` on a 401 and
returns the response to the caller. Only `Sidebar.fetchProjects` (lines
110-113) and the dashboard's `handleSelectProject` check
`response.status === 401` and open the `SessionExpiredModal`; every
other caller goes through its generic `!response.ok` path and renders a
local inline error. -/
structure Outcome401 where
  loggedOut : Bool
  sessionModalShown : Bool
  inlineErrorShown : Bool
deriving DecidableEq, Repr

/-- The 401 outcome at each call site. -/
def on401 : ApiCaller → Outcome401
  | .sidebarFetchProjects =>
    { loggedOut := true, sessionModalShown := true, inlineErrorShown := false }
  | .dashboardSelectProject =>
    { loggedOut := true, sessionModalShown := true, inlineErrorShown := false }
  | .autoCleanStep =>
    { loggedOut := true, sessionModalShown := false, inlineErrorShown := false }
  | _ =>
    { loggedOut := true, sessionModalShown := false, inlineErrorShown := true }

/-- The active-session invariant: whenever a project id is active, the
store holds a session object for it. -/
def ActiveInv (st : ProviderState) : Prop :=
  ∀ id, st.activeProjectId = some id → (st.projectSessions id).isSome

/-! ## Helper lemmas -/

theorem currentSession_eq_some {st : ProviderState} {sess : SessionObj}
    (h : currentSession st = some sess) :
    ∃ id, st.activeProjectId = some id ∧ st.projectSessions id = some sess := by
  unfold currentSession at h
  cases hid : st.activeProjectId with
  | none => rw [hid] at h; exact absurd h (by simp)
  | some id => rw [hid] at h; exact ⟨id, rfl, h⟩

theorem Store.set_same (st : Store) (id : Nat) (v : SessionObj) :
    (st.set id v) id = some v := by
  unfold Store.set; simp

theorem Store.set_other {id id' : Nat} (h : id' ≠ id) (st : Store) (v : SessionObj) :
    (st.set id v) id' = st id' := by
  unfold Store.set; simp [h]

theorem applyCompletion_currentSession {st : ProviderState} {sess : SessionObj}
    (c : StepCompletion) (h : currentSession st = some sess) :
    currentSession (applyCompletion st c) =
      some (mergeObj sess (onCompleteUpdate sess.profile (sess.agentMessages.getD []) c)) := by
  obtain ⟨id, hid, hstore⟩ := currentSession_eq_some h
  unfold applyCompletion updateCurrentSession
  rw [h]
  simp only [Option.getD_some, hid]
  unfold currentSession
  simp only [hid, hstore, Option.getD_some, Store.set_same]

theorem onCompleteUpdate_actionStep (p : Option Profile) (ams : List AgentEntry)
    (c : StepCompletion) :
    (onCompleteUpdate p ams c).actionStep = nextStep (mountStep c) := by
  cases c <;> rfl

theorem mergeObj_actionStep (prev u : SessionObj) :
    (mergeObj prev u).actionStep = u.actionStep.or prev.actionStep := rfl

theorem mergeObj_agentMessages (prev u : SessionObj) :
    (mergeObj prev u).agentMessages = u.agentMessages.or prev.agentMessages := rfl

/-! ## Claim C5 -/

/-- C5: for every stored blob, loading the session store on user
identification is total (the parse error is caught, never escaping the
loader), and a malformed (non-deserializable) blob is discarded: the
store resets to the empty mapping while the rest of the provider state
is untouched. -/
theorem load_malformed_resets_store (st : ProviderState) (e : String) :
    loadSessionsEffect st (some (Except.error e)) =
      { st with projectSessions := emptyStore } := rfl

/-! ## Claim C10 -/

/-- C10 counterexample: the claimed invariant "whenever
`activeProjectId` is non-null the store has a session record for it and
`currentSession` is never undefined" does NOT hold across the store
reload on user change: reloading a blob that lacks the active id leaves
`activeProjectId` set while `projectSessions` has no record for it, so
`currentSession` is `none`. -/
theorem active_session_invariant_false :
    (loadSessionsEffect
        { projectSessions := Store.set emptyStore 1
            { actionStep := some Step.initial, agentMessages := some [] }
          activeProjectId := some 1 }
        (some (Except.ok (Store.set emptyStore 2
            { actionStep := some Step.initial, agentMessages := some [] })))).activeProjectId
      = some 1 ∧
    currentSession
      (loadSessionsEffect
        { projectSessions := Store.set emptyStore 1
            { actionStep := some Step.initial, agentMessages := some [] }
          activeProjectId := some 1 }
        (some (Except.ok (Store.set emptyStore 2
            { actionStep := some Step.initial, agentMessages := some [] }))))
      = none := by
  exact ⟨rfl, rfl⟩

/-- C10 amended: the active-session invariant is established by
`setActiveProject` (which sets the active id and writes the record in
the same mutation) and preserved by `updateCurrentSession`, and under it
`currentSession` is defined whenever a project is active; the invariant
is NOT preserved by the store reload on user change (see the
counterexample), which replaces the map without resetting the active
id. -/
theorem active_session_invariant_preserved :
    (∀ st pd, ActiveInv st → ActiveInv (setActiveProject st pd)) ∧
    (∀ st u, ActiveInv st → ActiveInv (updateCurrentSession st u)) ∧
    (∀ st, ActiveInv st → st.activeProjectId.isSome → (currentSession st).isSome) := by
  refine ⟨?_, ?_, ?_⟩
  · intro st pd hinv id hid
    match pd with
    | none => simp [setActiveProject] at hid
    | some (pid, p) =>
      simp only [setActiveProject] at hid ⊢
      cases hid
      simp [Store.set_same]
  · intro st u hinv id hid
    unfold updateCurrentSession at hid ⊢
    cases hact : st.activeProjectId with
    | none =>
      rw [hact] at hid
      dsimp only at hid
      exact hinv id hid
    | some aid =>
      rw [hact] at hid
      dsimp only at hid
      injection hid with h
      subst h
      simp [Store.set_same]
  · intro st hinv hact
    cases hid : st.activeProjectId with
    | none => rw [hid] at hact; exact absurd hact (by simp)
    | some id =>
      unfold currentSession
      rw [hid]
      exact hinv id hid

/-- Witness for the amended C10 theorem at a concrete state: after
`setActiveProject` on the empty provider state, the derived
`currentSession` is defined. -/
theorem active_session_invariant_preserved_witness :
    (currentSession (setActiveProject
        { projectSessions := emptyStore, activeProjectId := none }
        (some (1, {})))).isSome := by
  obtain ⟨h1, -, h3⟩ := active_session_invariant_preserved
  refine h3 _ (h1 _ _ ?_) rfl
  intro id hid
  simp at hid

/-! ## Claim C9 -/

/-- C9 counterexample: it is NOT the case that every backend call
receiving HTTP 401 raises the global session-expired modal: a 401 on
the handle-duplicates call (and every other wizard-step call) goes
through the step's generic failure path instead. -/
theorem modal_on_401_everywhere_false :
    ¬ (∀ c : ApiCaller, (on401 c).sessionModalShown = true) := by
  intro h
  exact absurd (h .handleDuplicatesStep) (by decide)

/-- C9 amended: a 401 always clears the auth state
(`makeAuthenticatedRequest` calls `logout()`), but the session-expired
modal is raised only when the 401 comes from the sidebar project-list
fetch or the dashboard project selection; all other call sites handle
the 401 through their local failure path. -/
theorem modal_on_401_scope (c : ApiCaller) :
    (on401 c).loggedOut = true ∧
    ((on401 c).sessionModalShown = true ↔
      (c = .sidebarFetchProjects ∨ c = .dashboardSelectProject)) := by
  cases c <;> simp [on401]

/-! ## Claim C3 -/

/-- C3 counterexample: `setActiveProject` on an existing session does
NOT leave every non-profile field unchanged: a session holding pending
`typeSuggestions` loses them, because the object literal written by
`setActiveProject` carries only `profile`/`agentMessages`/`actionStep`. -/
theorem setActive_frame_false :
    ¬ (∀ (st : ProviderState) (id : Nat) (r : SessionObj) (p : Profile),
        st.projectSessions id = some r →
        (setActiveProject st (some (id, p))).projectSessions id =
          some { r with profile := some p }) := by
  intro h
  have hc := h
    { projectSessions := Store.set emptyStore 1
        { actionStep := some Step.convert_types
          agentMessages := some []
          typeSuggestions := some [infoEntry "pending"] }
      activeProjectId := some 1 }
    1
    { actionStep := some Step.convert_types
      agentMessages := some []
      typeSuggestions := some [infoEntry "pending"] }
    {} (by rfl)
  exact absurd hc (by decide)

/-- C3 amended: for an id with an existing session, `setActiveProject`
writes a record that takes the new `profile`, preserves `actionStep`
and `agentMessages`, and clears `typeSuggestions` and `edaResults`; a
default record (initial step, empty log) is created only when no
session exists for the id; in both cases the id becomes active. -/
theorem setActive_profile_merge (st : ProviderState) (id : Nat) (p : Profile) :
    (∀ r, st.projectSessions id = some r →
      (setActiveProject st (some (id, p))).projectSessions id =
        some { profile := some p
               agentMessages := some (r.agentMessages.getD [])
               actionStep := some (r.actionStep.getD .initial)
               typeSuggestions := none
               edaResults := none }) ∧
    (st.projectSessions id = none →
      (setActiveProject st (some (id, p))).projectSessions id =
        some { profile := some p
               agentMessages := some []
               actionStep := some .initial
               typeSuggestions := none
               edaResults := none }) ∧
    (setActiveProject st (some (id, p))).activeProjectId = some id := by
  refine ⟨?_, ?_, rfl⟩
  · intro r hr
    simp only [setActiveProject, Store.set_same, hr, Option.getD_some]
  · intro hr
    simp only [setActiveProject, Store.set_same, hr, Option.getD_none]
    rfl

/-- Witness for the amended C3 theorem at a concrete store holding a
session for project 1. -/
theorem setActive_profile_merge_witness :
    (setActiveProject
        { projectSessions := Store.set emptyStore 1
            { actionStep := some Step.impute_nulls
              agentMessages := some [infoEntry "hello"]
              typeSuggestions := some [] }
          activeProjectId := some 1 }
        (some (1, {}))).projectSessions 1 =
      some { profile := some {}
             agentMessages := some [infoEntry "hello"]
             actionStep := some Step.impute_nulls
             typeSuggestions := none
             edaResults := none } := by
  exact (setActive_profile_merge
      { projectSessions := Store.set emptyStore 1
          { actionStep := some Step.impute_nulls
            agentMessages := some [infoEntry "hello"]
            typeSuggestions := some [] }
        activeProjectId := some 1 } 1 {}).1
    { actionStep := some Step.impute_nulls
      agentMessages := some [infoEntry "hello"]
      typeSuggestions := some [] }
    (by rfl)

/-! ## Claim C4 -/

/-- C4: selecting project A (and possibly updating its session while
active), then selecting project B, then re-selecting A yields an active
session for A whose `actionStep` and `agentMessages` are exactly the
values they had when A was last active. -/
theorem reselect_restores_session (st : ProviderState) (A B : Nat)
    (pA pB pA2 : Profile) (u : SessionObj) (hAB : A ≠ B) (rA rB : SessionObj)
    (hA : st.projectSessions A = some rA) (_hB : st.projectSessions B = some rB) :
    ∃ r1 r3,
      currentSession (updateCurrentSession (setActiveProject st (some (A, pA))) u) = some r1 ∧
      currentSession
        (setActiveProject
          (setActiveProject
            (updateCurrentSession (setActiveProject st (some (A, pA))) u)
            (some (B, pB)))
          (some (A, pA2))) = some r3 ∧
      (setActiveProject
          (setActiveProject
            (updateCurrentSession (setActiveProject st (some (A, pA))) u)
            (some (B, pB)))
          (some (A, pA2))).activeProjectId = some A ∧
      r3.actionStep = r1.actionStep ∧
      r3.agentMessages = r1.agentMessages := by
  refine ⟨mergeObj
      { profile := some pA
        agentMessages := some (rA.agentMessages.getD [])
        actionStep := some (rA.actionStep.getD .initial) } u,
    { profile := some pA2
      agentMessages := some ((mergeObj
          { profile := some pA
            agentMessages := some (rA.agentMessages.getD [])
            actionStep := some (rA.actionStep.getD .initial) } u).agentMessages.getD [])
      actionStep := some ((mergeObj
          { profile := some pA
            agentMessages := some (rA.agentMessages.getD [])
            actionStep := some (rA.actionStep.getD .initial) } u).actionStep.getD .initial) },
    ?_, ?_, rfl, ?_, ?_⟩
  · simp [currentSession, updateCurrentSession, setActiveProject, Store.set_same, hA]
  · simp [currentSession, updateCurrentSession, setActiveProject, Store.set_same,
      Store.set_other hAB, Store.set_other (Ne.symm hAB), hA]
  · cases hu : u.actionStep with
    | none => simp [mergeObj, hu, Option.or]
    | some v => simp [mergeObj, hu, Option.or]
  · cases hu : u.agentMessages with
    | none => simp [mergeObj, hu, Option.or]
    | some v => simp [mergeObj, hu, Option.or]

/-- Witness for C4 at concrete projects 1 and 2. -/
theorem reselect_restores_session_witness :
    ∃ r1 r3,
      currentSession (updateCurrentSession
        (setActiveProject
          { projectSessions :=
              (Store.set emptyStore 1 { actionStep := some Step.suggest_types }).set 2
                { actionStep := some Step.initial }
            activeProjectId := none }
          (some (1, {}))) {}) = some r1 ∧
      currentSession
        (setActiveProject
          (setActiveProject
            (updateCurrentSession
              (setActiveProject
                { projectSessions :=
                    (Store.set emptyStore 1 { actionStep := some Step.suggest_types }).set 2
                      { actionStep := some Step.initial }
                  activeProjectId := none }
                (some (1, {}))) {})
            (some (2, {})))
          (some (1, {}))) = some r3 ∧
      (setActiveProject
          (setActiveProject
            (updateCurrentSession
              (setActiveProject
                { projectSessions :=
                    (Store.set emptyStore 1 { actionStep := some Step.suggest_types }).set 2
                      { actionStep := some Step.initial }
                  activeProjectId := none }
                (some (1, {}))) {})
            (some (2, {})))
          (some (1, {}))).activeProjectId = some 1 ∧
      r3.actionStep = r1.actionStep ∧
      r3.agentMessages = r1.agentMessages := by
  exact reselect_restores_session
    { projectSessions :=
        (Store.set emptyStore 1 { actionStep := some Step.suggest_types }).set 2
          { actionStep := some Step.initial }
      activeProjectId := none }
    1 2 {} {} {} {} (by decide)
    { actionStep := some Step.suggest_types } { actionStep := some Step.initial }
    (by rfl) (by rfl)

/-! ## Claim C1 -/

/-- C1: for every session state and every sequence of step completions
deliverable by the view, `actionStep` only ever advances forward through
the fixed order, one step at a time: a firing completion moves the
current step (a value of the `Step` type, i.e. always one of the
defined step names) to its fixed successor, whose index is exactly one
greater, and along any completion trace the step index never
decreases — so the step never moves backward, never skips a step and
never revisits a prior step. -/
theorem actionStep_forward_only :
    (∀ st c, completionFires st c →
      currentStepOf st = some (mountStep c) ∧
      currentStepOf (applyCompletion st c) = nextStep (mountStep c) ∧
      ∀ s', nextStep (mountStep c) = some s' →
        stepIndex s' = stepIndex (mountStep c) + 1) ∧
    (∀ st st', wizardReaches st st' → stepIdxOf st ≤ stepIdxOf st') := by
  have hfire : ∀ st c, completionFires st c →
      currentStepOf st = some (mountStep c) ∧
      currentStepOf (applyCompletion st c) = nextStep (mountStep c) := by
    intro st c hf
    obtain ⟨sess, hsess, hstep⟩ := hf
    constructor
    · unfold currentStepOf
      rw [hsess]
      exact hstep
    · rw [currentStepOf, applyCompletion_currentSession c hsess]
      cases c <;> rfl
  have hsucc : ∀ c : StepCompletion, ∀ s', nextStep (mountStep c) = some s' →
      stepIndex s' = stepIndex (mountStep c) + 1 := by
    intro c s' h
    cases c <;> (injection h with h; subst h; rfl)
  refine ⟨fun st c hf => ⟨(hfire st c hf).1, (hfire st c hf).2, hsucc c⟩, ?_⟩
  intro st st' h
  induction h with
  | refl => exact le_rfl
  | @tail mid fin hab hev ih =>
    obtain ⟨c, hf, rfl⟩ := hev
    have h1 := (hfire mid c hf).1
    have h2 := (hfire mid c hf).2
    have h3 : ∃ s', nextStep (mountStep c) = some s' := by
      cases c <;> exact ⟨_, rfl⟩
    obtain ⟨s', hs'⟩ := h3
    have hidx : stepIdxOf (applyCompletion mid c) = stepIndex (mountStep c) + 1 := by
      unfold stepIdxOf
      rw [h2, hs']
      exact hsucc c s' hs'
    have hcur : stepIdxOf mid = stepIndex (mountStep c) := by
      unfold stepIdxOf
      rw [h1]
    rw [hidx]
    exact le_trans ih (by rw [hcur]; exact Nat.le_succ _)

/-- Witness for C1: a concrete firing completion at the initial step
advances the session to `find_duplicates`. -/
theorem actionStep_forward_only_witness :
    currentStepOf
      (applyCompletion
        (setActiveProject { projectSessions := emptyStore, activeProjectId := none }
          (some (1, {})))
        (.autoClean {} [])) = some Step.find_duplicates := by
  have h := actionStep_forward_only.1
    (setActiveProject { projectSessions := emptyStore, activeProjectId := none }
      (some (1, {})))
    (.autoClean {} [])
    ⟨{ profile := some {}, agentMessages := some [], actionStep := some .initial },
      by rfl, by rfl⟩
  exact h.2.1

/-! ## Claim C7 -/

/-- C7: for every skippable step in a state where the skip applies —
the user declines duplicate removal, there are no null values to
impute, or there are no type suggestions to review — the skip action
issues no backend request, completes with exactly one `info`-kind
message which is appended to the log, and advances `actionStep` to the
fixed successor. -/
theorem skip_actions_one_info :
    (∀ st sess, currentSession st = some sess →
      sess.actionStep = some Step.handle_duplicates →
      handleDuplicatesCancel.requests = [] ∧
      handleDuplicatesCancel.completion =
        some (.handleDuplicates none [infoEntry "Skipped removing duplicates."]) ∧
      ∃ sess', currentSession (applyCompletion st
          (.handleDuplicates none [infoEntry "Skipped removing duplicates."])) = some sess' ∧
        sess'.agentMessages =
          some (sess.agentMessages.getD [] ++ [infoEntry "Skipped removing duplicates."]) ∧
        sess'.actionStep = some Step.suggest_types) ∧
    (∀ st sess, currentSession st = some sess → hasNulls sess = false →
      sess.actionStep = some Step.impute_nulls →
      imputeNullsSkipNoNulls.requests = [] ∧
      imputeNullsSkipNoNulls.completion =
        some (.imputeNulls none [infoEntry "No null values to impute."]) ∧
      ∃ sess', currentSession (applyCompletion st
          (.imputeNulls none [infoEntry "No null values to impute."])) = some sess' ∧
        sess'.agentMessages =
          some (sess.agentMessages.getD [] ++ [infoEntry "No null values to impute."]) ∧
        sess'.actionStep = some Step.drop_columns) ∧
    (∀ st sess, currentSession st = some sess → hasSuggestions sess = false →
      sess.actionStep = some Step.convert_types →
      convertTypesSkipNoSuggestions.requests = [] ∧
      convertTypesSkipNoSuggestions.completion =
        some (.convertTypes none [infoEntry "No type conversions to review."]) ∧
      ∃ sess', currentSession (applyCompletion st
          (.convertTypes none [infoEntry "No type conversions to review."])) = some sess' ∧
        sess'.agentMessages =
          some (sess.agentMessages.getD [] ++ [infoEntry "No type conversions to review."]) ∧
        sess'.actionStep = some Step.impute_nulls) := by
  refine ⟨?_, ?_, ?_⟩
  · intro st sess hsess _
    exact ⟨rfl, rfl, _, applyCompletion_currentSession _ hsess, rfl, rfl⟩
  · intro st sess hsess _ _
    exact ⟨rfl, rfl, _, applyCompletion_currentSession _ hsess, rfl, rfl⟩
  · intro st sess hsess _ _
    exact ⟨rfl, rfl, _, applyCompletion_currentSession _ hsess, rfl, rfl⟩

/-- Witness for C7 at a concrete session sitting at `impute_nulls` with
no null counts in its profile. -/
theorem skip_actions_one_info_witness :
    imputeNullsSkipNoNulls.requests = [] ∧
    imputeNullsSkipNoNulls.completion =
      some (.imputeNulls none [infoEntry "No null values to impute."]) ∧
    ∃ sess', currentSession (applyCompletion
        { projectSessions := Store.set emptyStore 3
            { profile := some {}, agentMessages := some [],
              actionStep := some Step.impute_nulls }
          activeProjectId := some 3 }
        (.imputeNulls none [infoEntry "No null values to impute."])) = some sess' ∧
      sess'.agentMessages =
        some ((SessionObj.agentMessages
          { profile := some {}, agentMessages := some [],
            actionStep := some Step.impute_nulls }).getD []
          ++ [infoEntry "No null values to impute."]) ∧
      sess'.actionStep = some Step.drop_columns := by
  exact skip_actions_one_info.2.1
    { projectSessions := Store.set emptyStore 3
        { profile := some {}, agentMessages := some [],
          actionStep := some Step.impute_nulls }
      activeProjectId := some 3 }
    { profile := some {}, agentMessages := some [], actionStep := some Step.impute_nulls }
    (by rfl) (by rfl) (by rfl)

/-! ## Claim C6 -/

/-- C6 counterexample: it is NOT the case that every wizard step
surfaces a failing backend call as a step-local inline error with
nothing appended to the shared log: the auto-clean (initial) step has
no inline error display and instead appends an `error`-kind message to
the shared `agentMessages` log. -/
theorem step_failure_inline_only_false :
    ¬ (∀ (s : Step) (e : String),
        (stepFailureOutcome s e).inlineError = some e ∧
        (stepFailureOutcome s e).logAppend = [] ∧
        (stepFailureOutcome s e).completion = none) := by
  intro h
  exact absurd (h .initial "Auto-cleaning failed").1 (by decide)

/-- C6 amended: on a failing backend call, every wizard step except the
auto-clean (initial) step sets a step-local inline error and appends
nothing to the shared log; the auto-clean step instead appends one
`error`-kind message to the shared log and shows no inline error; no
step ever invokes its completion callback on failure, so `actionStep`
is never advanced and the user may retry. -/
theorem step_failure_behavior :
    (∀ (s : Step) (e : String), s ≠ Step.initial →
      (stepFailureOutcome s e).inlineError = some e ∧
      (stepFailureOutcome s e).logAppend = []) ∧
    (∀ e : String,
      (stepFailureOutcome Step.initial e).inlineError = none ∧
      (stepFailureOutcome Step.initial e).logAppend = [errorEntry e]) ∧
    (∀ (s : Step) (e : String), (stepFailureOutcome s e).completion = none) := by
  refine ⟨?_, fun e => ⟨rfl, rfl⟩, fun s e => by cases s <;> rfl⟩
  intro s e hs
  cases s with
  | initial => exact absurd rfl hs
  | find_duplicates => exact ⟨rfl, rfl⟩
  | handle_duplicates => exact ⟨rfl, rfl⟩
  | suggest_types => exact ⟨rfl, rfl⟩
  | convert_types => exact ⟨rfl, rfl⟩
  | impute_nulls => exact ⟨rfl, rfl⟩
  | drop_columns => exact ⟨rfl, rfl⟩
  | export_csv => exact ⟨rfl, rfl⟩

/-- Witness for the amended C6 theorem at the handle-duplicates step. -/
theorem step_failure_behavior_witness :
    (stepFailureOutcome Step.handle_duplicates "Failed to handle duplicates").inlineError =
      some "Failed to handle duplicates" ∧
    (stepFailureOutcome Step.handle_duplicates "Failed to handle duplicates").logAppend = [] := by
  exact step_failure_behavior.1 Step.handle_duplicates "Failed to handle duplicates" (by decide)

/-! ## Claim C2 -/

/-- C2 (the code evaluated at the failing input): when
`suggest-conversions` succeeds with one suggestion, `SuggestTypesStep`
calls `onComplete(newMessages, data.suggestions)` while the view's
handler binds its FIRST parameter to `typeSuggestions` and spreads the
SECOND into `agentMessages`; the resulting session stores the step's
message list in `typeSuggestions` and appends the raw suggestion
objects to `agentMessages` — the opposite of the claimed data flow. -/
theorem suggest_types_swap_eval :
    (suggestTypesOnSuccess
        { suggestions := [{ column_name := "age", current_type := "VARCHAR",
                            suggested_type := "BIGINT", confidence := (95 : Rat)/100 }] }).completion =
      some (.suggestTypes
        [infoEntry (suggestMessage
          [{ column_name := "age", current_type := "VARCHAR",
             suggested_type := "BIGINT", confidence := (95 : Rat)/100 }])]
        [.suggestion { column_name := "age", current_type := "VARCHAR",
                       suggested_type := "BIGINT", confidence := (95 : Rat)/100 }]) ∧
    ∃ sess, currentSession (applyCompletion
        { projectSessions := Store.set emptyStore 7
            { profile := some {}, agentMessages := some [],
              actionStep := some Step.suggest_types }
          activeProjectId := some 7 }
        (.suggestTypes
          [infoEntry (suggestMessage
            [{ column_name := "age", current_type := "VARCHAR",
               suggested_type := "BIGINT", confidence := (95 : Rat)/100 }])]
          [.suggestion { column_name := "age", current_type := "VARCHAR",
                         suggested_type := "BIGINT", confidence := (95 : Rat)/100 }])) = some sess ∧
      sess.typeSuggestions =
        some [infoEntry (suggestMessage
          [{ column_name := "age", current_type := "VARCHAR",
             suggested_type := "BIGINT", confidence := (95 : Rat)/100 }])] ∧
      sess.agentMessages =
        some [.suggestion { column_name := "age", current_type := "VARCHAR",
                            suggested_type := "BIGINT", confidence := (95 : Rat)/100 }] ∧
      sess.actionStep = some Step.convert_types := by
  exact ⟨rfl, _, rfl, rfl, rfl, rfl⟩

/-! ## Claim C8 -/

theorem edaRun_cached_no_refetch (k : String) :
    ∀ (es : List EdaEvent) (st : EdaChartState),
      (st.chartDataState k).isSome = true →
      ((edaRun st es).2.count k = 0) ∧
      (((edaRun st es).1.chartDataState k).isSome = true) := by
  intro es
  induction es with
  | nil => exact fun st h => ⟨rfl, h⟩
  | cons e es ih =>
    intro st h
    cases e with
    | fetch k2 =>
      by_cases hg : (st.chartDataState k2).isSome = true ∨ st.loadingChartId = some k2
      · have hstep : edaStep st (.fetch k2) = (st, 0) := by
          simp only [edaStep]; rw [if_pos hg]
        have := ih st h
        simp only [edaRun, hstep] at this ⊢
        simpa using this
      · have hk : k2 ≠ k := by
          intro hkk
          subst hkk
          exact hg (Or.inl h)
        have hstep : edaStep st (.fetch k2) =
            ({ st with loadingChartId := some k2, inFlight := k2 :: st.inFlight }, 1) := by
          simp only [edaStep]; rw [if_neg hg]
        have := ih { st with loadingChartId := some k2, inFlight := k2 :: st.inFlight } h
        simp only [edaRun, hstep] at this ⊢
        refine ⟨?_, this.2⟩
        simpa [List.count_cons, hk] using this.1
    | land k2 r =>
      by_cases hm : k2 ∈ st.inFlight
      · have hstep : edaStep st (.land k2 r) =
            ({ chartDataState := fun k3 => if k3 = k2 then some r else st.chartDataState k3
               loadingChartId := none
               inFlight := st.inFlight.erase k2 }, 0) := by
          simp only [edaStep]; rw [if_pos hm]
        have h2 : (((fun k3 => if k3 = k2 then some r else st.chartDataState k3) : String → Option ChartResult) k).isSome = true := by
          by_cases hkk : k = k2
          · simp [hkk]
          · simpa [hkk] using h
        have := ih
          { chartDataState := fun k3 => if k3 = k2 then some r else st.chartDataState k3
            loadingChartId := none
            inFlight := st.inFlight.erase k2 } h2
        simp only [edaRun, hstep] at this ⊢
        simpa using this
      · have hstep : edaStep st (.land k2 r) = (st, 0) := by
          simp only [edaStep]; rw [if_neg hm]
        have := ih st h
        simp only [edaRun, hstep] at this ⊢
        simpa using this

/-- C8 counterexample: a chart-data key is NOT fetched at most once per
session lifetime, and two concurrent fetches for the same key ARE
possible: because only a single `loadingChartId` is tracked, starting a
fetch for a second key overwrites it, after which a renewed effect for
the first, still-unresolved key passes the cached-or-loading guard and
issues a duplicate request (two requests issued and two in-flight
fetches for the same key in a reachable trace). -/
theorem chart_fetch_at_most_once_false :
    ¬ (∀ (es : List EdaEvent) (k : String),
        ((edaRun edaInit es).2.count k ≤ 1) ∧
        ((edaRun edaInit es).1.inFlight.count k ≤ 1)) := by
  intro h
  exact absurd
    (h [.fetch "bar_chart-age-null", .fetch "scatter_plot-height-weight",
        .fetch "bar_chart-age-null"] "bar_chart-age-null").1
    (by decide)

/-- C8 amended: the guard of `fetchChartData` skips the request when the
key already has cached data or is the single currently tracked loading
key, and once a result (success or error) is cached under a key, no
later event of the same `EdaView` mount ever issues another request for
that key; at-most-once per key does not hold in general because only
one loading key is tracked at a time (see the counterexample), and the
cache is component state, lost when the EDA view itself unmounts. -/
theorem chart_fetch_guard (st : EdaChartState) (k : String) :
    ((st.chartDataState k).isSome = true → edaStep st (.fetch k) = (st, 0)) ∧
    (st.loadingChartId = some k → edaStep st (.fetch k) = (st, 0)) ∧
    ((st.chartDataState k).isSome = true →
      ∀ es : List EdaEvent,
        ((edaRun st es).2.count k = 0) ∧
        (((edaRun st es).1.chartDataState k).isSome = true)) := by
  refine ⟨?_, ?_, ?_⟩
  · intro h
    simp only [edaStep]
    rw [if_pos (Or.inl h)]
  · intro h
    simp only [edaStep]
    rw [if_pos (Or.inr h)]
  · intro h es
    exact edaRun_cached_no_refetch k es st h

/-- Witness for the amended C8 theorem: after a fetch and its landed
response for a concrete key, replaying a fetch for that key issues no
request. -/
theorem chart_fetch_guard_witness :
    (edaRun (edaRun edaInit [.fetch "bar_chart-age-null",
        .land "bar_chart-age-null" (.payload [])]).1
      [.fetch "bar_chart-age-null"]).2.count "bar_chart-age-null" = 0 := by
  exact ((chart_fetch_guard
    (edaRun edaInit [.fetch "bar_chart-age-null",
      .land "bar_chart-age-null" (.payload [])]).1
    "bar_chart-age-null").2.2 (by decide) [.fetch "bar_chart-age-null"]).1

end InsightDuck
